import Mathlib

/-!
Verification of the psycanvas-backend request pipeline.

Shallow embedding of the Express server in `src/unnamed/part_000` (the main
server: Joi `chatSchema`, the `POST /api/chat` handler with its 30-second
`Promise.race` timeout and its error-classifying catch block, and the system
prompt template) and of the chunking filter of `src/seed.js`.

JSON values are modelled by `JVal`; a parsed request body is an association
list of string keys to `JVal` (what `express.json()` hands to the handler for
a JSON object body).  JavaScript string length is modelled as the number of
characters.  Joi is run as `chatSchema.validate(req.body, { abortEarly:
false })`: every violation is collected; unknown keys are rejected (Joi's
default `allowUnknown: false`); `convert`-mode coercions that turn a JSON
string into an array (irrelevant to every claim below, which only concern
array-valued or clearly non-array `materials`) are outside the modelled
inputs.
-/

/-- A JSON value as delivered by `express.json()`. -/
inductive JVal where
  | jstr  : String → JVal
  | jnum  : Int → JVal
  | jbool : Bool → JVal
  | jnull : JVal
  | jarr  : List JVal → JVal
  | jobj  : List (String × JVal) → JVal

/-- A parsed JSON object body: ordered key/value pairs. -/
abbrev Body := List (String × JVal)

/-- Property access `body[k]`: the value of the first pair with key `k`. -/
def lookup (body : Body) (k : String) : Option JVal :=
  (body.find? (fun kv => kv.1 = k)).map (·.2)

/-- The validated request record Joi returns as `value` on success
(`part_000` lines 147-153). -/
structure ChatRequest where
  question      : String
  citationStyle : String
  citationMode  : String
  recency       : String
  materials     : List String
deriving DecidableEq

/-! ## Request Validator: `chatSchema` (`part_000` lines 89-112)

Each field rule emits the violation messages Joi produces under
`abortEarly: false`, custom messages as declared in the schema and Joi
default messages (`string.empty`, `string.base` on items, `array.base`,
`object.unknown`) elsewhere.  Joi checks a `valid(...)`-restricted field
against its allowed set before the base string type, so any non-member
value — of any type — yields the single `any.only` message. -/

/-- Rule `question: Joi.string().min(10).max(5000).required()` with the four
custom messages of lines 90-95.  A missing key fails `any.required`; a
non-string fails `string.base`; the empty string fails Joi's `string.empty`
(length rules are not reached for it); otherwise `min`/`max` are checked. -/
def questionErrors : Option JVal → List String
  | none => ["Question is required"]
  | some (.jstr s) =>
      if s = "" then ["\x22question\x22 is not allowed to be empty"]
      else
        (if s.length < 10 then ["Question must be at least 10 characters long"] else [])
          ++ (if 5000 < s.length then ["Question cannot exceed 5000 characters"] else [])
  | some _ => ["Question must be a string"]

/-- Rule `Joi.string().valid(...).default(...)` shared by `citationStyle`,
`citationMode` and `recency` (lines 96-104): an absent key is defaulted (no
error); a present value outside the allowed set fails `any.only` with the
schema's custom message. -/
def enumErrors (valids : List String) (msg : String) : Option JVal → List String
  | none => []
  | some (.jstr s) => if s ∈ valids then [] else [msg]
  | some _ => [msg]

/-- Per-item rule `Joi.string().max(500)` of lines 105-108, at item index
`idx`: non-strings fail `string.base`, the empty string fails `string.empty`,
and over-500-character strings fail `string.max` with the custom message. -/
def materialItemError (idx : Nat) : JVal → List String
  | .jstr s =>
      if s = "" then ["\x22materials[" ++ toString idx ++ "]\x22 is not allowed to be empty"]
      else if 500 < s.length then ["Each material entry cannot exceed 500 characters"]
      else []
  | _ => ["\x22materials[" ++ toString idx ++ "]\x22 must be a string"]

/-- All item violations of a `materials` array, items checked in order. -/
def materialItemErrors (idx : Nat) : List JVal → List String
  | [] => []
  | v :: rest => materialItemError idx v ++ materialItemErrors (idx + 1) rest

/-- Rule `materials: Joi.array().items(...).max(20).default([])` of lines
105-111: absent key defaulted; non-array fails `array.base`; otherwise all
item violations are collected, then `array.max` with the custom message. -/
def materialsErrors : Option JVal → List String
  | none => []
  | some (.jarr items) =>
      materialItemErrors 0 items
        ++ (if 20 < items.length then ["Materials cannot exceed 20 items"] else [])
  | some _ => ["\x22materials\x22 must be an array"]

/-- The five keys declared by `chatSchema`. -/
def declaredKeys : List String :=
  ["question", "citationStyle", "citationMode", "recency", "materials"]

/-- Joi's default `allowUnknown: false`: every key of the body outside the
schema fails `object.unknown` with the default message naming the key. -/
def unknownKeyErrors (body : Body) : List String :=
  body.filterMap fun kv =>
    if kv.1 ∈ declaredKeys then none
    else some ("\x22" ++ kv.1 ++ "\x22 is not allowed")

/-- All violation messages of `chatSchema.validate(body, { abortEarly:
false })`, fields in schema declaration order, unknown-key errors last. -/
def chatErrors (body : Body) : List String :=
  questionErrors (lookup body "question")
    ++ enumErrors ["apa", "mla", "chicago"]
        "Citation style must be one of: apa, mla, chicago" (lookup body "citationStyle")
    ++ enumErrors ["strict", "balanced", "flexible"]
        "Citation mode must be one of: strict, balanced, flexible" (lookup body "citationMode")
    ++ enumErrors ["5", "10", "15", "all"]
        "Recency must be one of: 5, 10, 15, all" (lookup body "recency")
    ++ materialsErrors (lookup body "materials")
    ++ unknownKeyErrors body

/-- On success Joi returns the field's string (validation guarantees it is
one), or the schema default `d` when the key is absent. -/
def extractStr (o : Option JVal) (d : String) : String :=
  match o with
  | some (.jstr s) => s
  | _ => d

/-- On success Joi returns the materials array's strings (validation
guarantees every item is one), or the default `[]` when absent. -/
def extractMaterials (o : Option JVal) : List String :=
  match o with
  | some (.jarr items) => items.map (fun v => match v with | .jstr s => s | _ => "")
  | _ => []

/-- `chatSchema.validate(req.body, { abortEarly: false })` (line 136): either
the complete ordered violation list, or the normalized `ChatRequest` with
defaults `apa` / `balanced` / `10` / `[]` substituted for absent fields. -/
def validateChat (body : Body) : Except (List String) ChatRequest :=
  if chatErrors body = [] then
    .ok { question      := extractStr (lookup body "question") ""
        , citationStyle := extractStr (lookup body "citationStyle") "apa"
        , citationMode  := extractStr (lookup body "citationMode") "balanced"
        , recency       := extractStr (lookup body "recency") "10"
        , materials     := extractMaterials (lookup body "materials") }
  else .error (chatErrors body)

/-! ## Prompt Builder: the `systemPrompt` template literal (`part_000`
lines 166-190), `.trim()` applied (the literal's single leading and trailing
newline removed, interior untouched). -/

/-- The recency ternary of line 181:
`recency === 'all' ? 'no hard limit, but flag older work'
 : 'focus on roughly the last ' + recency + ' years of research'`. -/
def recencyClause (recency : String) : String :=
  if recency = "all" then "no hard limit, but flag older work"
  else "focus on roughly the last " ++ recency ++ " years of research"

/-- JavaScript `Array.prototype.join(sep)`. -/
def jsJoin (sep : String) : List String → String
  | [] => ""
  | [m] => m
  | m :: rest => m ++ sep ++ jsJoin sep rest

/-- The materials ternary of line 184: a non-empty (truthy-length) array
renders the heading sentence and the `'\n  - '`-joined list, an empty array
renders the fixed sentence. -/
def materialsClause : List String → String
  | [] => "- No specific course materials listed in this request."
  | m :: rest =>
      "- User has indicated the following course materials:\n  - "
        ++ jsJoin "\n  - " (m :: rest)

/-- The template text up to and including `- Recency preference: `,
with the two `citationStyle` interpolations and the `citationMode` one. -/
def promptIntro (citationStyle citationMode : String) : String :=
  "You are PsyCanvas AI, a mental health study assistant for college-level psychology and counseling students.\n\n"
    ++ "Goals:\n"
    ++ "- Help users understand mental health concepts, DSM-5-TR criteria (described in your own words), case formulations, and evidence-based treatments.\n"
    ++ "- Use mental-health specific knowledge, plus the course materials the user provides (textbooks, articles).\n"
    ++ "- Always include in-text citations and a reference list in the requested style: "
    ++ citationStyle ++ ".\n\n"
    ++ "Critical rules:\n"
    ++ "- Do NOT reproduce DSM-5-TR text verbatim (paraphrase in your own words).\n"
    ++ "- Use cautious, non-fabricated citations; if you are not sure about a reference, either omit it or clearly flag it as a suggested reading, not a precise citation.\n\n"
    ++ "Citation style:\n"
    ++ "- Current setting: " ++ citationStyle ++ ".\n"
    ++ "- Citation strictness: " ++ citationMode ++ ".\n"
    ++ "- Recency preference: "

/-- The fixed template text after the materials clause. -/
def promptOutro : String :=
  "\n\nOutput format:\n"
    ++ "1. Provide a clear, structured explanation or answer to the user\x27s question.\n"
    ++ "2. Use in-text citations with author and year (and page/section if appropriate).\n"
    ++ "3. End with a \x22References\x22 section, listing the main sources you relied on, formatted as best you can in the chosen style."

/-- The whole trimmed `systemPrompt` string of lines 166-190, grouped so the
interpolated clauses are visible. -/
def systemPrompt (req : ChatRequest) : String :=
  promptIntro req.citationStyle req.citationMode
    ++ (recencyClause req.recency
    ++ (".\n\n"
    ++ ("Course materials:\n"
    ++ (materialsClause req.materials
    ++ promptOutro))))

/-! ## Completion Gateway: `Promise.race([generatePromise, timeoutPromise])`
(`part_000` lines 192-203). -/

/-- An exception value as caught in the handler's catch block: the
always-present `message` and the optional `code` and `status` fields
inspected there. -/
structure JsError where
  message : String
  code    : Option String := none
  status  : Option Nat := none
deriving DecidableEq

/-- What the remote `generateText` promise does: settle at some time with a
success text or a rejection, or never settle. -/
inductive RemoteOutcome where
  | settles : Nat → Except JsError String → RemoteOutcome
  | never   : RemoteOutcome

/-- The rejection produced by `timeoutPromise` (line 194):
`new Error('Request timeout')`. -/
def timeoutError : JsError := { message := "Request timeout" }

/-- `Promise.race` of the remote call against the 30000 ms timer: the remote
outcome when it settles strictly before the timer fires, the timeout
rejection otherwise; the loser is discarded. -/
def raceWithTimeout (o : RemoteOutcome) : Except JsError String :=
  match o with
  | .settles t r => if t < 30000 then r else .error timeoutError
  | .never => .error timeoutError

/-! ## Response Classifier: the catch block (`part_000` lines 212-285). -/

/-- `a.isPrefixOf b` on character lists, spelled out. -/
def leadsWith : List Char → List Char → Bool
  | [], _ => true
  | _ :: _, [] => false
  | a :: as, b :: bs => a = b && leadsWith as bs

/-- Whether `sub` occurs contiguously in `s`. -/
def includesAux (sub : List Char) : List Char → Bool
  | [] => leadsWith sub []
  | c :: rest => leadsWith sub (c :: rest) || includesAux sub rest

/-- JavaScript `s.includes(sub)`. -/
def jsIncludes (s sub : String) : Bool := includesAux sub.data s.data

/-- An HTTP response: status code and JSON body. -/
structure HttpResponse where
  status : Nat
  body   : JVal

/-- The catch block's if-chain, in source order: each branch fixes the
status and the JSON error body returned by `res.status(...).json({...})`. -/
def catchResponse (e : JsError) : HttpResponse :=
  if e.message = "Request timeout" then
    ⟨408, .jobj [("error", .jstr "Request timeout"),
                 ("message", .jstr "The request took too long to process. Please try again.")]⟩
  else if e.code = some "ENOTFOUND" ∨ e.code = some "ECONNREFUSED"
      ∨ jsIncludes e.message "network" = true then
    ⟨503, .jobj [("error", .jstr "Service unavailable"),
                 ("message", .jstr "Unable to connect to AI service. Please try again later.")]⟩
  else if e.status = some 401 ∨ jsIncludes e.message "API key" = true
      ∨ jsIncludes e.message "authentication" = true then
    ⟨500, .jobj [("error", .jstr "Configuration error"),
                 ("message", .jstr "The service is currently unavailable. Please contact support.")]⟩
  else if e.status = some 429 ∨ jsIncludes e.message "rate limit" = true then
    ⟨429, .jobj [("error", .jstr "Rate limit exceeded"),
                 ("message", .jstr "Too many requests. Please try again later.")]⟩
  else if jsIncludes e.message "model" = true ∨ jsIncludes e.message "invalid" = true then
    ⟨500, .jobj [("error", .jstr "Configuration error"),
                 ("message", .jstr "Invalid AI model configuration. Please contact support.")]⟩
  else
    ⟨500, .jobj [("error", .jstr "Internal server error"),
                 ("message", .jstr "Something went wrong while generating an answer. Please try again.")]⟩

/-- The 400 body of the validation branch (lines 141-144). -/
def validationFailedResponse (msgs : List String) : HttpResponse :=
  ⟨400, .jobj [("error", .jstr "Validation failed"),
               ("details", .jarr (msgs.map .jstr))]⟩

/-- The whole `POST /api/chat` handler on a parsed object body.  `remote`
gives the behaviour of `generateText` as a function of the system string and
user prompt it is called with; the second component records the arguments of
the outbound call when one is made (`none` when none is). -/
def handleChat (body : Body) (remote : String → String → RemoteOutcome) :
    HttpResponse × Option (String × String) :=
  match validateChat body with
  | .error msgs => (validationFailedResponse msgs, none)
  | .ok req =>
      let sys := systemPrompt req
      match raceWithTimeout (remote sys req.question) with
      | .ok text => (⟨200, .jobj [("answer", .jstr text)]⟩, some (sys, req.question))
      | .error e => (catchResponse e, some (sys, req.question))

/-! ## Ingestion Script: the chunking of `src/seed.js` (lines 60-62). -/

/-- JavaScript `text.split('\n\n')` on the character list: scanning left to
right, each occurrence of the two-newline separator ends the current
fragment and is consumed; the leftover tail is the last fragment. -/
def splitBlank : List Char → List (List Char)
  | [] => [[]]
  | '\n' :: '\n' :: rest => [] :: splitBlank rest
  | c :: rest =>
      match splitBlank rest with
      | [] => [[c]]
      | frag :: frags => (c :: frag) :: frags

/-- The blank-line-delimited fragments of an input file:
`text.split('\n\n')` (`seed.js` line 62). -/
def seedFragments (text : String) : List String :=
  (splitBlank text.data).map String.mk

/-- `text.split('\n\n').filter(c => c.length > 50)` (`seed.js` line 62): the
fragments kept for embedding are exactly those whose length exceeds 50. -/
def seedChunks (text : String) : List String :=
  (seedFragments text).filter (fun c => 50 < c.length)

/-! ## Spec-side definitions (for the refinement statements) -/

/-- Field access on a JSON object body, for stating response shapes. -/
def jfield (v : JVal) (k : String) : Option JVal :=
  match v with
  | .jobj kvs => (kvs.find? (fun kv => kv.1 = k)).map (·.2)
  | _ => none

/-- The spec's Completion Gateway failure taxonomy (§4.3). -/
inductive FailureKind where
  | timeout | unreachable | misconfigured | throttled | badModelConfig | unknownKind
deriving DecidableEq

/-- Modelled from the spec (§4.4 / §9): the failure kind, "determined by
inspecting the failure's reported code/message substrings" — the same
code/status/message tests the catch block applies, read as a classification
into the §4.3 taxonomy. -/
def kindOf (e : JsError) : FailureKind :=
  if e.message = "Request timeout" then .timeout
  else if e.code = some "ENOTFOUND" ∨ e.code = some "ECONNREFUSED"
      ∨ jsIncludes e.message "network" = true then .unreachable
  else if e.status = some 401 ∨ jsIncludes e.message "API key" = true
      ∨ jsIncludes e.message "authentication" = true then .misconfigured
  else if e.status = some 429 ∨ jsIncludes e.message "rate limit" = true then .throttled
  else if jsIncludes e.message "model" = true ∨ jsIncludes e.message "invalid" = true then
    .badModelConfig
  else .unknownKind

/-- Modelled from the spec: the status column of the §4.4 table. -/
def specStatus : FailureKind → Nat
  | .timeout => 408
  | .unreachable => 503
  | .misconfigured => 500
  | .throttled => 429
  | .badModelConfig => 500
  | .unknownKind => 500

/-- Modelled from the spec: the `error` field of the body column of the
§4.4 table. -/
def specErrorText : FailureKind → String
  | .timeout => "Request timeout"
  | .unreachable => "Service unavailable"
  | .misconfigured => "Configuration error"
  | .throttled => "Rate limit exceeded"
  | .badModelConfig => "Configuration error"
  | .unknownKind => "Internal server error"

/-- A `JVal` is one of the allowed enum string values. -/
def inEnum (valids : List String) : JVal → Prop
  | .jstr s => s ∈ valids
  | _ => False

/-- `sub` occurs contiguously in `s`. -/
def strContains (s sub : String) : Prop :=
  ∃ pre post : List Char, s.data = pre ++ sub.data ++ post

/-- The remote promise settles strictly before `bound`. -/
def settlesWithin (bound : Nat) : RemoteOutcome → Prop
  | .settles t _ => t < bound
  | .never => False

/-- One bulleted entry per material string, in order, each on its own
indented `- `-marked line — the shape the spec ascribes to the rendered
materials list. -/
def bulletedEntries : List String → String
  | [] => ""
  | m :: rest => ("\n  - " ++ m) ++ bulletedEntries rest

/-- A request body whose `question` is `q` and whose four optional fields
are each either omitted (`none`) or supplied (`some`) with an arbitrary
value — strings for the three enum fields, a string array for
`materials`. -/
def genBody (q : String) (s? m? r? : Option String)
    (mats? : Option (List String)) : Body :=
  ("question", .jstr q)
    :: ((match s? with | some s => [("citationStyle", JVal.jstr s)] | none => [])
      ++ (match m? with | some m => [("citationMode", JVal.jstr m)] | none => [])
      ++ (match r? with | some r => [("recency", JVal.jstr r)] | none => [])
      ++ (match mats? with
          | some ms => [("materials", JVal.jarr (ms.map JVal.jstr))]
          | none => []))

/-! ## Helper lemmas -/

theorem strAppend_data (a b : String) : (a ++ b).data = a.data ++ b.data :=
  String.data_append a b

theorem strAppend_assoc (a b c : String) : a ++ b ++ c = a ++ (b ++ c) := by
  apply String.ext
  simp [strAppend_data, List.append_assoc]

theorem strAppend_empty (a : String) : a ++ "" = a := by
  apply String.ext
  simp [strAppend_data]

/-- The joined materials list equals the per-entry bulleted concatenation. -/
theorem bullet_join (m : String) (rest : List String) :
    "\n  - " ++ jsJoin "\n  - " (m :: rest) = bulletedEntries (m :: rest) := by
  induction rest generalizing m with
  | nil => simp [jsJoin, bulletedEntries, strAppend_empty]
  | cons r t ih =>
      show "\n  - " ++ (m ++ "\n  - " ++ jsJoin "\n  - " (r :: t)) = _
      rw [strAppend_assoc m, ← strAppend_assoc "\n  - " m, bulletedEntries, ← ih r]

theorem strContains_nest1 (a d e : String) : strContains (a ++ (d ++ e)) d :=
  ⟨a.data, e.data, by simp [strAppend_data, List.append_assoc]⟩

theorem strContains_nest3 (a b c d e : String) :
    strContains (a ++ (b ++ (c ++ (d ++ e)))) d :=
  ⟨a.data ++ (b.data ++ c.data), e.data, by simp [strAppend_data, List.append_assoc]⟩

theorem strContains_nest4 (a b c f d e : String) :
    strContains (a ++ (b ++ (c ++ (f ++ (d ++ e))))) d :=
  ⟨a.data ++ (b.data ++ (c.data ++ f.data)), e.data, by
    simp [strAppend_data, List.append_assoc]⟩

theorem mem_chatErrors_question {body : Body} {msg : String}
    (h : msg ∈ questionErrors (lookup body "question")) : msg ∈ chatErrors body := by
  unfold chatErrors
  simp only [List.mem_append]
  exact Or.inl (Or.inl (Or.inl (Or.inl (Or.inl h))))

theorem mem_chatErrors_style {body : Body} {msg : String}
    (h : msg ∈ enumErrors ["apa", "mla", "chicago"]
      "Citation style must be one of: apa, mla, chicago" (lookup body "citationStyle")) :
    msg ∈ chatErrors body := by
  unfold chatErrors
  simp only [List.mem_append]
  exact Or.inl (Or.inl (Or.inl (Or.inl (Or.inr h))))

theorem mem_chatErrors_mode {body : Body} {msg : String}
    (h : msg ∈ enumErrors ["strict", "balanced", "flexible"]
      "Citation mode must be one of: strict, balanced, flexible" (lookup body "citationMode")) :
    msg ∈ chatErrors body := by
  unfold chatErrors
  simp only [List.mem_append]
  exact Or.inl (Or.inl (Or.inl (Or.inr h)))

theorem mem_chatErrors_recency {body : Body} {msg : String}
    (h : msg ∈ enumErrors ["5", "10", "15", "all"]
      "Recency must be one of: 5, 10, 15, all" (lookup body "recency")) :
    msg ∈ chatErrors body := by
  unfold chatErrors
  simp only [List.mem_append]
  exact Or.inl (Or.inl (Or.inr h))

theorem mem_chatErrors_materials {body : Body} {msg : String}
    (h : msg ∈ materialsErrors (lookup body "materials")) : msg ∈ chatErrors body := by
  unfold chatErrors
  simp only [List.mem_append]
  exact Or.inl (Or.inr h)

theorem mem_chatErrors_unknown {body : Body} {msg : String}
    (h : msg ∈ unknownKeyErrors body) : msg ∈ chatErrors body := by
  unfold chatErrors
  simp only [List.mem_append]
  exact Or.inr h

theorem validateChat_error_of_ne {body : Body} (h : chatErrors body ≠ []) :
    validateChat body = .error (chatErrors body) := by
  simp [validateChat, h]

theorem handleChat_of_errors {body : Body} (remote : String → String → RemoteOutcome)
    (h : chatErrors body ≠ []) :
    handleChat body remote = (validationFailedResponse (chatErrors body), none) := by
  unfold handleChat
  rw [validateChat_error_of_ne h]

/-- C2: every failure caught at the remote-completion step is answered with
exactly the status code and `error` text the spec table assigns to its kind,
the kind being read off the failure's reported code/status and message
substrings, and the body always carries a `message` field. -/
theorem error_classifier_matches_spec_table (e : JsError) :
    (catchResponse e).status = specStatus (kindOf e)
      ∧ jfield (catchResponse e).body "error" = some (.jstr (specErrorText (kindOf e)))
      ∧ ∃ m, jfield (catchResponse e).body "message" = some (.jstr m) := by
  unfold catchResponse kindOf
  split_ifs <;> simp [specStatus, specErrorText, jfield, List.find?]

/-- C3: on a valid request whose remote call does not settle within the
30-second bound, the response is 408 with the fixed timeout body, whatever
the remote call would eventually return — its result is never consulted. -/
theorem timeout_yields_408_discarding_remote (body : Body) (req : ChatRequest)
    (remote : String → String → RemoteOutcome)
    (hok : validateChat body = .ok req)
    (hslow : ∀ sys q, ¬ settlesWithin 30000 (remote sys q)) :
    (handleChat body remote).1 =
      ⟨408, .jobj [("error", .jstr "Request timeout"),
                   ("message", .jstr "The request took too long to process. Please try again.")]⟩ := by
  unfold handleChat
  rw [hok]
  have h1 : raceWithTimeout (remote (systemPrompt req) req.question) = .error timeoutError := by
    cases ho : remote (systemPrompt req) req.question with
    | settles t r =>
        have ht := hslow (systemPrompt req) req.question
        rw [ho] at ht
        simp only [settlesWithin, Nat.not_lt] at ht
        simp [raceWithTimeout, Nat.not_lt.mpr ht]
    | never => rfl
  simp only [h1]
  rfl

/-- C4: a request that fails validation is answered 400 and never reaches
the completion gateway, and conversely an outbound call is made only after
validation succeeded, with the built prompt and the validated question. -/
theorem validation_failure_skips_remote_call (body : Body)
    (remote : String → String → RemoteOutcome) :
    (∀ msgs, validateChat body = .error msgs →
        handleChat body remote = (validationFailedResponse msgs, none))
      ∧ (∀ p, (handleChat body remote).2 = some p →
        ∃ req, validateChat body = .ok req ∧ p = (systemPrompt req, req.question)) := by
  constructor
  · intro msgs h
    unfold handleChat
    rw [h]
  · intro p hp
    unfold handleChat at hp
    cases hv : validateChat body with
    | error msgs => rw [hv] at hp; simp at hp
    | ok req =>
        rw [hv] at hp
        refine ⟨req, rfl, ?_⟩
        cases hr : raceWithTimeout (remote (systemPrompt req) req.question) <;>
          simp only [hr] at hp <;> exact (Option.some_injective _ hp).symm

theorem timeout_yields_408_discarding_remote_witness :
    (handleChat [("question", .jstr "Explain the core symptoms of MDD today")]
        (fun _ _ => .never)).1 =
      ⟨408, .jobj [("error", .jstr "Request timeout"),
                   ("message", .jstr "The request took too long to process. Please try again.")]⟩ :=
  timeout_yields_408_discarding_remote _
    ⟨"Explain the core symptoms of MDD today", "apa", "balanced", "10", []⟩ _
    rfl (fun _ _ h => h)

theorem validation_failure_skips_remote_call_witness :
    handleChat [("question", .jstr "short")] (fun _ _ => .never)
      = (validationFailedResponse ["Question must be at least 10 characters long"], none) :=
  (validation_failure_skips_remote_call _ _).1 _ rfl

/-- C6: the rendered instruction text contains the spec's recency wording:
for `recency = "all"` the no-hard-limit sentence, for the numeric choices
the focus-on-the-last-N-years sentence with the literal value. -/
theorem recency_clause_rendering (req : ChatRequest) :
    (req.recency = "all" →
      strContains (systemPrompt req) "no hard limit, but flag older work")
      ∧ (req.recency ∈ ["5", "10", "15"] →
      strContains (systemPrompt req)
        ("focus on roughly the last " ++ req.recency ++ " years of research")) := by
  constructor
  · intro h
    have hs : systemPrompt req =
        promptIntro req.citationStyle req.citationMode
          ++ ("no hard limit, but flag older work"
          ++ (".\n\n"
          ++ ("Course materials:\n"
          ++ (materialsClause req.materials ++ promptOutro)))) := by
      simp [systemPrompt, recencyClause, h]
    rw [hs]
    exact strContains_nest1 _ _ _
  · intro h
    have hne : req.recency ≠ "all" := by
      simp only [List.mem_cons, List.not_mem_nil, or_false] at h
      rcases h with h | h | h <;> rw [h] <;> decide
    have hs : systemPrompt req =
        promptIntro req.citationStyle req.citationMode
          ++ (("focus on roughly the last " ++ req.recency ++ " years of research")
          ++ (".\n\n"
          ++ ("Course materials:\n"
          ++ (materialsClause req.materials ++ promptOutro)))) := by
      simp [systemPrompt, recencyClause, hne]
    rw [hs]
    exact strContains_nest1 _ _ _

theorem recency_clause_rendering_witness :
    strContains (systemPrompt ⟨"q", "apa", "balanced", "all", []⟩)
        "no hard limit, but flag older work"
      ∧ strContains (systemPrompt ⟨"q", "apa", "balanced", "5", []⟩)
        ("focus on roughly the last " ++ "5" ++ " years of research") :=
  ⟨(recency_clause_rendering _).1 rfl, (recency_clause_rendering _).2 (by decide)⟩

/-- C7: under the `Course materials:` heading the instruction text renders,
for a non-empty materials list, the heading sentence followed by one
bulleted entry per material string in order, and for an empty list the
fixed no-materials sentence. -/
theorem materials_clause_rendering (req : ChatRequest) :
    (req.materials ≠ [] →
      strContains (systemPrompt req)
        ("Course materials:\n- User has indicated the following course materials:"
          ++ bulletedEntries req.materials))
      ∧ (req.materials = [] →
      strContains (systemPrompt req)
        "- No specific course materials listed in this request.") := by
  constructor
  · intro h
    obtain ⟨m, rest, hm⟩ : ∃ m rest, req.materials = m :: rest := by
      cases hml : req.materials with
      | nil => exact absurd hml h
      | cons m rest => exact ⟨m, rest, rfl⟩
    have hmat : materialsClause req.materials
        = "- User has indicated the following course materials:"
            ++ bulletedEntries req.materials := by
      rw [hm]
      show "- User has indicated the following course materials:\n  - "
          ++ jsJoin "\n  - " (m :: rest) = _
      rw [show ("- User has indicated the following course materials:\n  - " : String)
          = "- User has indicated the following course materials:" ++ "\n  - " from rfl]
      rw [strAppend_assoc, bullet_join]
    have hs : systemPrompt req =
        promptIntro req.citationStyle req.citationMode
          ++ (recencyClause req.recency
          ++ (".\n\n"
          ++ (("Course materials:\n- User has indicated the following course materials:"
                ++ bulletedEntries req.materials)
          ++ promptOutro))) := by
      simp only [systemPrompt]
      rw [hmat]
      rw [strAppend_assoc "- User has indicated the following course materials:"]
      rw [← strAppend_assoc "Course materials:\n"]
      rw [show (("Course materials:\n" : String)
            ++ "- User has indicated the following course materials:")
          = "Course materials:\n- User has indicated the following course materials:"
          from rfl]
      rw [strAppend_assoc]
    rw [hs]
    exact strContains_nest3 _ _ _ _ _
  · intro h
    have hs : systemPrompt req =
        promptIntro req.citationStyle req.citationMode
          ++ (recencyClause req.recency
          ++ (".\n\n"
          ++ ("Course materials:\n"
          ++ ("- No specific course materials listed in this request."
          ++ promptOutro)))) := by
      simp only [systemPrompt, h]
      rfl
    rw [hs]
    exact strContains_nest4 _ _ _ _ _ _

theorem materials_clause_rendering_witness :
    strContains (systemPrompt ⟨"q", "apa", "balanced", "10", ["Kring 2021", "DSM-5-TR"]⟩)
        ("Course materials:\n- User has indicated the following course materials:"
          ++ bulletedEntries ["Kring 2021", "DSM-5-TR"])
      ∧ strContains (systemPrompt ⟨"q", "apa", "balanced", "10", []⟩)
        "- No specific course materials listed in this request." :=
  ⟨(materials_clause_rendering _).1 (by simp), (materials_clause_rendering _).2 rfl⟩

theorem lookup_genBody_question (q : String) (s? m? r? : Option String)
    (mats? : Option (List String)) :
    lookup (genBody q s? m? r? mats?) "question" = some (.jstr q) := rfl

theorem lookup_genBody_style (q : String) (s? m? r? : Option String)
    (mats? : Option (List String)) :
    lookup (genBody q s? m? r? mats?) "citationStyle" = s?.map JVal.jstr := by
  cases s? <;> cases m? <;> cases r? <;> cases mats? <;> rfl

theorem lookup_genBody_mode (q : String) (s? m? r? : Option String)
    (mats? : Option (List String)) :
    lookup (genBody q s? m? r? mats?) "citationMode" = m?.map JVal.jstr := by
  cases s? <;> cases m? <;> cases r? <;> cases mats? <;> rfl

theorem lookup_genBody_recency (q : String) (s? m? r? : Option String)
    (mats? : Option (List String)) :
    lookup (genBody q s? m? r? mats?) "recency" = r?.map JVal.jstr := by
  cases s? <;> cases m? <;> cases r? <;> cases mats? <;> rfl

theorem lookup_genBody_materials (q : String) (s? m? r? : Option String)
    (mats? : Option (List String)) :
    lookup (genBody q s? m? r? mats?) "materials"
      = mats?.map (fun ms => JVal.jarr (ms.map JVal.jstr)) := by
  cases s? <;> cases m? <;> cases r? <;> cases mats? <;> rfl

theorem unknownKeyErrors_genBody (q : String) (s? m? r? : Option String)
    (mats? : Option (List String)) :
    unknownKeyErrors (genBody q s? m? r? mats?) = [] := by
  cases s? <;> cases m? <;> cases r? <;> cases mats? <;> rfl

theorem enumErrors_map_nil (valids : List String) (msg : String) (o : Option String)
    (d : String) (h : o.getD d ∈ valids) :
    enumErrors valids msg (o.map JVal.jstr) = [] := by
  cases o with
  | none => rfl
  | some s =>
      have hs : s ∈ valids := by simpa using h
      simp [enumErrors, hs]

theorem materialItemErrors_nil (ms : List String)
    (h : ∀ m ∈ ms, 0 < m.length ∧ m.length ≤ 500) :
    ∀ n, materialItemErrors n (ms.map JVal.jstr) = [] := by
  induction ms with
  | nil => intro n; rfl
  | cons m rest ih =>
      intro n
      obtain ⟨h0, h500⟩ := h m (List.mem_cons_self _ _)
      have hne : ¬ m = "" := by
        intro he
        rw [he] at h0
        simp [String.length] at h0
      have hn5 : ¬ 500 < m.length := Nat.not_lt.mpr h500
      simp only [List.map_cons, materialItemErrors]
      rw [ih (fun x hx => h x (List.mem_cons_of_mem _ hx)) (n + 1)]
      simp [materialItemError, hne, hn5]

theorem materialsErrors_map_nil (mats? : Option (List String))
    (hmats : ∀ m ∈ mats?.getD [], 0 < m.length ∧ m.length ≤ 500)
    (hlen : (mats?.getD []).length ≤ 20) :
    materialsErrors (mats?.map (fun ms => JVal.jarr (ms.map JVal.jstr))) = [] := by
  cases mats? with
  | none => rfl
  | some ms =>
      have ha : materialItemErrors 0 (ms.map JVal.jstr) = [] :=
        materialItemErrors_nil ms (by simpa using hmats) 0
      have hb : ¬ 20 < (ms.map JVal.jstr).length := by
        simp only [List.length_map]
        exact Nat.not_lt.mpr (by simpa using hlen)
      show materialsErrors (some (.jarr (ms.map .jstr))) = []
      simp [materialsErrors, ha, hb]
      simpa using hlen

theorem extractStr_map_jstr (o : Option String) (d : String) :
    extractStr (o.map JVal.jstr) d = o.getD d := by
  cases o <;> rfl

theorem extractMaterials_map (mats? : Option (List String)) :
    extractMaterials (mats?.map (fun ms => JVal.jarr (ms.map JVal.jstr)))
      = mats?.getD [] := by
  cases mats? with
  | none => rfl
  | some ms =>
      show extractMaterials (some (.jarr (ms.map .jstr))) = ms
      simp only [extractMaterials]
      induction ms with
      | nil => rfl
      | cons m rest ih => simpa using ih

/-- Any body with a valid question, each supplied optional field holding a
valid value and the rest omitted, validates to the request whose optional
fields are the supplied values or, when omitted, the schema defaults. -/
theorem validateChat_genBody (q : String) (s? m? r? : Option String)
    (mats? : Option (List String))
    (h1 : 10 ≤ q.length) (h2 : q.length ≤ 5000)
    (hs : s?.getD "apa" ∈ ["apa", "mla", "chicago"])
    (hm : m?.getD "balanced" ∈ ["strict", "balanced", "flexible"])
    (hr : r?.getD "10" ∈ ["5", "10", "15", "all"])
    (hmats : ∀ m ∈ mats?.getD [], 0 < m.length ∧ m.length ≤ 500)
    (hlen : (mats?.getD []).length ≤ 20) :
    validateChat (genBody q s? m? r? mats?)
      = .ok ⟨q, s?.getD "apa", m?.getD "balanced", r?.getD "10", mats?.getD []⟩ := by
  have hne : q ≠ "" := by
    intro h
    rw [h] at h1
    simp [String.length] at h1
  have hq : questionErrors (some (.jstr q)) = [] := by
    simp [questionErrors, hne, Nat.not_lt.mpr h1, Nat.not_lt.mpr h2]
  have hce : chatErrors (genBody q s? m? r? mats?) = [] := by
    rw [chatErrors, lookup_genBody_question, lookup_genBody_style, lookup_genBody_mode,
      lookup_genBody_recency, lookup_genBody_materials, unknownKeyErrors_genBody]
    rw [hq, enumErrors_map_nil _ _ _ _ hs, enumErrors_map_nil _ _ _ _ hm,
      enumErrors_map_nil _ _ _ _ hr, materialsErrors_map_nil _ hmats hlen]
    rfl
  rw [validateChat, if_pos hce]
  rw [lookup_genBody_question, lookup_genBody_style, lookup_genBody_mode,
    lookup_genBody_recency, lookup_genBody_materials]
  rw [extractStr_map_jstr, extractStr_map_jstr, extractStr_map_jstr, extractMaterials_map]
  rfl

/-- C5: for every valid request — a valid question, each supplied optional
field holding any valid value — omitting any subset of the optional fields
validates to the same request, hence the same system-instruction string, as
explicitly supplying `apa` / `balanced` / `10` / `[]` for exactly the
omitted fields. -/
theorem omitted_defaults_same_prompt (q : String) (s? m? r? : Option String)
    (mats? : Option (List String))
    (h1 : 10 ≤ q.length) (h2 : q.length ≤ 5000)
    (hs : s?.getD "apa" ∈ ["apa", "mla", "chicago"])
    (hm : m?.getD "balanced" ∈ ["strict", "balanced", "flexible"])
    (hr : r?.getD "10" ∈ ["5", "10", "15", "all"])
    (hmats : ∀ m ∈ mats?.getD [], 0 < m.length ∧ m.length ≤ 500)
    (hlen : (mats?.getD []).length ≤ 20) :
    validateChat (genBody q s? m? r? mats?)
        = .ok ⟨q, s?.getD "apa", m?.getD "balanced", r?.getD "10", mats?.getD []⟩
      ∧ Except.map systemPrompt (validateChat (genBody q s? m? r? mats?))
        = Except.map systemPrompt (validateChat (genBody q
            (some (s?.getD "apa")) (some (m?.getD "balanced"))
            (some (r?.getD "10")) (some (mats?.getD [])))) := by
  have hA := validateChat_genBody q s? m? r? mats? h1 h2 hs hm hr hmats hlen
  have hB := validateChat_genBody q (some (s?.getD "apa")) (some (m?.getD "balanced"))
    (some (r?.getD "10")) (some (mats?.getD [])) h1 h2 (by simpa using hs)
    (by simpa using hm) (by simpa using hr) (by simpa using hmats) (by simpa using hlen)
  refine ⟨hA, ?_⟩
  rw [hA, hB]
  rfl

theorem omitted_defaults_same_prompt_witness :
    validateChat (genBody "What is cognitive behavioral therapy?" (some "mla") none none
          (some ["Kring 2021"]))
        = .ok ⟨"What is cognitive behavioral therapy?", "mla", "balanced", "10",
            ["Kring 2021"]⟩
      ∧ Except.map systemPrompt (validateChat (genBody
            "What is cognitive behavioral therapy?" (some "mla") none none
            (some ["Kring 2021"])))
        = Except.map systemPrompt (validateChat (genBody
            "What is cognitive behavioral therapy?" (some "mla") (some "balanced")
            (some "10") (some ["Kring 2021"]))) :=
  omitted_defaults_same_prompt "What is cognitive behavioral therapy?" (some "mla") none none
    (some ["Kring 2021"]) (by decide) (by decide) (by decide) (by decide) (by decide)
    (by decide) (by decide)

theorem enumErrors_mem (valids : List String) (msg : String) (v : JVal)
    (hv : ¬ inEnum valids v) : msg ∈ enumErrors valids msg (some v) := by
  cases v with
  | jstr s =>
      have hs : s ∉ valids := hv
      simp [enumErrors, hs]
  | jnum n => simp [enumErrors]
  | jbool b => simp [enumErrors]
  | jnull => simp [enumErrors]
  | jarr l => simp [enumErrors]
  | jobj kvs => simp [enumErrors]

theorem mem_materialItemErrors (s : String) (h5 : 500 < s.length) :
    ∀ (items : List JVal) (n : Nat), JVal.jstr s ∈ items →
      "Each material entry cannot exceed 500 characters" ∈ materialItemErrors n items := by
  intro items
  induction items with
  | nil => intro n h; simp at h
  | cons v rest ih =>
      intro n h
      rcases List.mem_cons.mp h with h | h
      · rw [← h]
        apply List.mem_append_left
        have hne : ¬ s = "" := by
          intro he
          rw [he] at h5
          simp [String.length] at h5
        simp [materialItemError, hne, h5]
      · exact List.mem_append_right _ (ih (n + 1) h)

/-- C1: a body violating any `chatSchema` rule is answered 400 with
`error: "Validation failed"` and `details` holding the full collected
violation list, and that list carries one message for every violated rule —
a missing, non-string, too-short (Joi words the empty string's violation as
its `string.empty` message), or too-long `question`; an out-of-enum
`citationStyle`, `citationMode` or `recency`; an over-20-item `materials`
array or any over-500-character entry — simultaneous violations, such as a
bad `question` together with bad `materials`, all appearing in the one
response. -/
theorem chat_validation_collects_all_violations
    (body : Body) (remote : String → String → RemoteOutcome) :
    (chatErrors body ≠ [] →
      handleChat body remote = (validationFailedResponse (chatErrors body), none))
      ∧ (lookup body "question" = none → "Question is required" ∈ chatErrors body)
      ∧ (∀ v, lookup body "question" = some v → (∀ s, v ≠ .jstr s) →
        "Question must be a string" ∈ chatErrors body)
      ∧ (∀ s, lookup body "question" = some (.jstr s) → 0 < s.length → s.length < 10 →
        "Question must be at least 10 characters long" ∈ chatErrors body)
      ∧ (∀ s, lookup body "question" = some (.jstr s) → s.length = 0 →
        "\x22question\x22 is not allowed to be empty" ∈ chatErrors body)
      ∧ (∀ s, lookup body "question" = some (.jstr s) → 5000 < s.length →
        "Question cannot exceed 5000 characters" ∈ chatErrors body)
      ∧ (∀ v, lookup body "citationStyle" = some v → ¬ inEnum ["apa", "mla", "chicago"] v →
        "Citation style must be one of: apa, mla, chicago" ∈ chatErrors body)
      ∧ (∀ v, lookup body "citationMode" = some v →
        ¬ inEnum ["strict", "balanced", "flexible"] v →
        "Citation mode must be one of: strict, balanced, flexible" ∈ chatErrors body)
      ∧ (∀ v, lookup body "recency" = some v → ¬ inEnum ["5", "10", "15", "all"] v →
        "Recency must be one of: 5, 10, 15, all" ∈ chatErrors body)
      ∧ (∀ items, lookup body "materials" = some (.jarr items) → 20 < items.length →
        "Materials cannot exceed 20 items" ∈ chatErrors body)
      ∧ (∀ items s, lookup body "materials" = some (.jarr items) → JVal.jstr s ∈ items →
        500 < s.length →
        "Each material entry cannot exceed 500 characters" ∈ chatErrors body) := by
  refine ⟨fun h => handleChat_of_errors remote h, ?_, ?_, ?_, ?_, ?_, ?_, ?_, ?_, ?_, ?_⟩
  · intro h
    apply mem_chatErrors_question
    rw [h]
    simp [questionErrors]
  · intro v h hns
    apply mem_chatErrors_question
    rw [h]
    cases v with
    | jstr s => exact absurd rfl (hns s)
    | jnum n => simp [questionErrors]
    | jbool b => simp [questionErrors]
    | jnull => simp [questionErrors]
    | jarr l => simp [questionErrors]
    | jobj kvs => simp [questionErrors]
  · intro s h h0 hlt
    apply mem_chatErrors_question
    rw [h]
    have hne : ¬ s = "" := by
      intro he
      rw [he] at h0
      simp [String.length] at h0
    simp [questionErrors, hne, hlt]
  · intro s h h0
    apply mem_chatErrors_question
    rw [h]
    have he : s = "" := by
      cases s with
      | mk data => cases data with
        | nil => rfl
        | cons c cs => simp [String.length] at h0
    simp [questionErrors, he]
  · intro s h h5
    apply mem_chatErrors_question
    rw [h]
    have hne : ¬ s = "" := by
      intro he
      rw [he] at h5
      simp [String.length] at h5
    have hnlt : ¬ s.length < 10 := by omega
    simp [questionErrors, hne, hnlt, h5]
  · intro v h hv
    apply mem_chatErrors_style
    rw [h]
    exact enumErrors_mem _ _ v hv
  · intro v h hv
    apply mem_chatErrors_mode
    rw [h]
    exact enumErrors_mem _ _ v hv
  · intro v h hv
    apply mem_chatErrors_recency
    rw [h]
    exact enumErrors_mem _ _ v hv
  · intro items h hlen
    apply mem_chatErrors_materials
    rw [h]
    simp only [materialsErrors]
    apply List.mem_append_right
    simp [hlen]
  · intro items s h hmem h5
    apply mem_chatErrors_materials
    rw [h]
    simp only [materialsErrors]
    exact List.mem_append_left _ (mem_materialItemErrors s h5 items 0 hmem)

set_option maxRecDepth 8000 in
theorem chat_validation_collects_all_violations_witness :
    "Question must be at least 10 characters long"
        ∈ chatErrors [("question", .jstr "short"),
            ("materials", .jarr (JVal.jstr (String.mk (List.replicate 501 'a'))
              :: List.replicate 20 (JVal.jstr "psych")))]
      ∧ "Materials cannot exceed 20 items"
        ∈ chatErrors [("question", .jstr "short"),
            ("materials", .jarr (JVal.jstr (String.mk (List.replicate 501 'a'))
              :: List.replicate 20 (JVal.jstr "psych")))]
      ∧ "Each material entry cannot exceed 500 characters"
        ∈ chatErrors [("question", .jstr "short"),
            ("materials", .jarr (JVal.jstr (String.mk (List.replicate 501 'a'))
              :: List.replicate 20 (JVal.jstr "psych")))]
      ∧ handleChat [("question", .jstr "short"),
            ("materials", .jarr (JVal.jstr (String.mk (List.replicate 501 'a'))
              :: List.replicate 20 (JVal.jstr "psych")))] (fun _ _ => .never)
        = (validationFailedResponse (chatErrors [("question", .jstr "short"),
            ("materials", .jarr (JVal.jstr (String.mk (List.replicate 501 'a'))
              :: List.replicate 20 (JVal.jstr "psych")))]), none) := by
  obtain ⟨h400, _, _, hmin, _, _, _, _, _, hmax, hitem⟩ :=
    chat_validation_collects_all_violations
      [("question", .jstr "short"),
        ("materials", .jarr (JVal.jstr (String.mk (List.replicate 501 'a'))
          :: List.replicate 20 (JVal.jstr "psych")))] (fun _ _ => .never)
  have h1 := hmin "short" rfl (by decide) (by decide)
  have h2 := hmax _ rfl (by decide)
  have h3 := hitem _ (String.mk (List.replicate 501 'a')) rfl (List.mem_cons_self _ _)
    (by decide)
  exact ⟨h1, h2, h3, h400 (List.ne_nil_of_mem h1)⟩

/-- C9: any body carrying a key outside the five declared fields fails
validation: the 400 response's details include Joi's `object.unknown`
message naming that key, whatever the other fields hold. -/
theorem unknown_key_rejected (body : Body) (k : String) (v : JVal)
    (remote : String → String → RemoteOutcome)
    (hk : (k, v) ∈ body) (hunk : k ∉ declaredKeys) :
    ("\x22" ++ k ++ "\x22 is not allowed") ∈ chatErrors body
      ∧ handleChat body remote = (validationFailedResponse (chatErrors body), none) := by
  have hmem : ("\x22" ++ k ++ "\x22 is not allowed") ∈ unknownKeyErrors body := by
    unfold unknownKeyErrors
    exact List.mem_filterMap.mpr ⟨(k, v), hk, by simp [hunk]⟩
  have hc := mem_chatErrors_unknown hmem
  exact ⟨hc, handleChat_of_errors remote (List.ne_nil_of_mem hc)⟩

theorem unknown_key_rejected_witness :
    ("\x22" ++ "sessionId" ++ "\x22 is not allowed")
        ∈ chatErrors [("question", .jstr "What is CBT used for today?"),
            ("citationStyle", .jstr "mla"), ("citationMode", .jstr "strict"),
            ("recency", .jstr "5"), ("materials", .jarr [.jstr "Kring 2021"]),
            ("sessionId", .jnum 7)]
      ∧ handleChat [("question", .jstr "What is CBT used for today?"),
            ("citationStyle", .jstr "mla"), ("citationMode", .jstr "strict"),
            ("recency", .jstr "5"), ("materials", .jarr [.jstr "Kring 2021"]),
            ("sessionId", .jnum 7)] (fun _ _ => .never)
        = (validationFailedResponse (chatErrors
            [("question", .jstr "What is CBT used for today?"),
              ("citationStyle", .jstr "mla"), ("citationMode", .jstr "strict"),
              ("recency", .jstr "5"), ("materials", .jarr [.jstr "Kring 2021"]),
              ("sessionId", .jnum 7)]), none) := by
  have h := unknown_key_rejected
    [("question", .jstr "What is CBT used for today?"),
      ("citationStyle", .jstr "mla"), ("citationMode", .jstr "strict"),
      ("recency", .jstr "5"), ("materials", .jarr [.jstr "Kring 2021"]),
      ("sessionId", .jnum 7)]
    "sessionId" (.jnum 7) (fun _ _ => .never) (by simp) (by decide)
  exact ⟨h.1, h.2⟩

/-- C10: a `recency` supplied as anything but one of the four enumeration
strings — a JSON number 10 included — fails validation with a 400, and the
same string-typed enumeration requirement holds for `citationStyle` and
`citationMode`. -/
theorem nonstring_enum_rejected (body : Body) (remote : String → String → RemoteOutcome) :
    (∀ v, lookup body "recency" = some v → ¬ inEnum ["5", "10", "15", "all"] v →
      (handleChat body remote).1.status = 400)
      ∧ (∀ v, lookup body "citationStyle" = some v → ¬ inEnum ["apa", "mla", "chicago"] v →
      (handleChat body remote).1.status = 400)
      ∧ (∀ v, lookup body "citationMode" = some v →
      ¬ inEnum ["strict", "balanced", "flexible"] v →
      (handleChat body remote).1.status = 400) := by
  refine ⟨?_, ?_, ?_⟩
  · intro v hlk hv
    have hmem := @mem_chatErrors_recency body _
      (by rw [hlk]; exact enumErrors_mem _ _ v hv)
    rw [handleChat_of_errors remote (List.ne_nil_of_mem hmem)]
    rfl
  · intro v hlk hv
    have hmem := @mem_chatErrors_style body _
      (by rw [hlk]; exact enumErrors_mem _ _ v hv)
    rw [handleChat_of_errors remote (List.ne_nil_of_mem hmem)]
    rfl
  · intro v hlk hv
    have hmem := @mem_chatErrors_mode body _
      (by rw [hlk]; exact enumErrors_mem _ _ v hv)
    rw [handleChat_of_errors remote (List.ne_nil_of_mem hmem)]
    rfl

theorem nonstring_enum_rejected_witness :
    (handleChat [("question", .jstr "What is CBT used for today?"),
        ("recency", .jnum 10)] (fun _ _ => .never)).1.status = 400 :=
  (nonstring_enum_rejected
      [("question", .jstr "What is CBT used for today?"), ("recency", .jnum 10)]
      (fun _ _ => .never)).1
    (.jnum 10) rfl (by simp [inEnum])

/-- C8 counterexample: a fragment of exactly 50 characters is a
blank-line-delimited fragment of at least 50 characters, yet the ingestion
filter drops it — the claim that every fragment of at least 50 characters is
retained fails at this input. -/
theorem seed_fifty_char_fragment_dropped :
    50 ≤ ("aaaaaaaaaaaaaaaaaaaaaaaaaaaaaaaaaaaaaaaaaaaaaaaaaa" : String).length
      ∧ seedFragments "aaaaaaaaaaaaaaaaaaaaaaaaaaaaaaaaaaaaaaaaaaaaaaaaaa"
        = ["aaaaaaaaaaaaaaaaaaaaaaaaaaaaaaaaaaaaaaaaaaaaaaaaaa"]
      ∧ seedChunks "aaaaaaaaaaaaaaaaaaaaaaaaaaaaaaaaaaaaaaaaaaaaaaaaaa" = [] := by
  refine ⟨by decide, by decide, by decide⟩

/-- C8 amended: the ingestion script retains exactly the blank-line-delimited
fragments longer than 50 characters; fragments of 50 characters or fewer are
skipped. -/
theorem seed_chunks_retain_iff_longer_than_fifty (text c : String) :
    c ∈ seedChunks text ↔ c ∈ seedFragments text ∧ 50 < c.length := by
  simp [seedChunks, List.mem_filter]
